import Mathlib

/-!
Shallow embedding of the nav2_platform sources
(`src/nav2_driver/src/nav2remote.cpp` and the ROS driver node it is linked
with): the `Nav2Remote` protocol client (filtered line reader, command
formatting, query parsing, `wait`) and the driver-side odometry machinery
(`Pose2D`, `BaseOdometry`, the reconnect handoff in `Nav2Driver::connect`,
and `Nav2Driver::setVelocity`).

IEEE-754 doubles are modelled as exact rationals (the arithmetic the claims
exercise is exact), and `sprintf("%lf", d)` is modelled as correctly rounded
six-fractional-digit decimal formatting.
-/

attribute [local semireducible] Rat.mul Rat.inv Rat.add Rat.sub Rat.ofScientific

/-- The exact rational value of the IEEE-754 double constant `M_PI`
(bit pattern 0x400921FB54442D18), namely 884279719003555 / 2^48. -/
def mpi : ℚ := 884279719003555 / 281474976710656

/-- C conversion of a `double` to `int`: truncation toward zero
(C11 6.3.1.4).  `Int` division in Lean truncates toward zero, so the
quotient of the reduced numerator and denominator is exactly this. -/
def cIntCast (q : ℚ) : ℤ := q.num / (q.den : ℤ)

/-- The C library function `int abs(int)` from `<stdlib.h>`. -/
def cabsInt (i : ℤ) : ℤ := if i < 0 then -i else i

/-- `nav2_driver::Nav2Driver::Pose2D`: (x, y, th) in meters/radians,
each member a C `double`. -/
structure Pose2D where
  x : ℚ
  y : ℚ
  th : ℚ
deriving DecidableEq

/-- `Pose2D::operator-=` applied to a copy of `a` with argument `b`
(so also the value produced by `Pose2D::operator-`, which is implemented as
`return *this -= other;` and therefore mutates its left operand).
The rollover test `abs(th - other.th) > M_PI` calls the unqualified name
`abs`, which in this translation unit resolves to the C `int abs(int)`
from `<stdlib.h>` (the floating-point overloads introduced by `<cmath>`
live in namespace `std` only), so the operand is first converted to `int`
by truncation toward zero. -/
def Pose2D.sub (a b : Pose2D) : Pose2D :=
  { x := a.x - b.x
    y := a.y - b.y
    th :=
      (if mpi < ((cabsInt (cIntCast (a.th - b.th)) : ℤ) : ℚ) then
        (if 0 < b.th then a.th + 2 * mpi else a.th - 2 * mpi)
      else a.th) - b.th }

/-- `Pose2D::operator+=` applied to a copy of `a` with argument `b`. -/
def Pose2D.add (a b : Pose2D) : Pose2D :=
  { x := a.x + b.x, y := a.y + b.y, th := a.th + b.th }

/-- `Pose2D::operator/=` applied to a copy of `a` with scalar `s`. -/
def Pose2D.divScalar (a : Pose2D) (s : ℚ) : Pose2D :=
  { x := a.x / s, y := a.y / s, th := a.th / s }

/-- `nav2_driver::Nav2Driver::BaseOdometry`: accumulated pose, last
velocity, previous raw sample, output offset, and the last update time
(`ros::Time` modelled as a rational number of seconds). -/
structure BaseOdometry where
  pose : Pose2D
  vel : Pose2D
  prev : Pose2D
  offset : Pose2D
  lastTime : ℚ
deriving DecidableEq

/-- `BaseOdometry::BaseOdometry()`: every pose member value-initialized to
(0,0,0), `last_time_` set to the current time. -/
def BaseOdometry.init (now : ℚ) : BaseOdometry :=
  { pose := ⟨0, 0, 0⟩, vel := ⟨0, 0, 0⟩, prev := ⟨0, 0, 0⟩
    offset := ⟨0, 0, 0⟩, lastTime := now }

/-- `BaseOdometry::BaseOdometry(Pose2D offset)`: as `init`, but with the
given output offset. -/
def BaseOdometry.initWithOffset (offset : Pose2D) (now : ℚ) : BaseOdometry :=
  { pose := ⟨0, 0, 0⟩, vel := ⟨0, 0, 0⟩, prev := ⟨0, 0, 0⟩
    offset := offset, lastTime := now }

/-- `BaseOdometry::updateWithRelative(Pose2D delta)`: `elapsed` is the time
since the previous update, the delta is accumulated into `pose_`, and
`vel_` is the delta divided by `elapsed` (the two `ros::Time::now()` calls
are modelled by the single parameter `now`). -/
def BaseOdometry.updateWithRelative (st : BaseOdometry) (now : ℚ)
    (delta : Pose2D) : BaseOdometry :=
  let elapsed := now - st.lastTime
  { st with
    lastTime := now
    pose := st.pose.add delta
    vel := delta.divScalar elapsed }

/-- `BaseOdometry::updateWithAbsolute(Pose2D abs)`: the source computes
`updateWithRelative(abs - prev_); prev_ = abs;`.  Since `Pose2D::operator-`
is `return *this -= other;`, the expression `abs - prev_` mutates the local
copy `abs` into the delta before `prev_ = abs` runs, so `prev_` receives
the delta, not the incoming sample. -/
def BaseOdometry.updateWithAbsolute (st : BaseOdometry) (now : ℚ)
    (sample : Pose2D) : BaseOdometry :=
  let d := sample.sub st.prev
  let st1 := st.updateWithRelative now d
  { st1 with prev := d }

/-- `BaseOdometry::getPose()`: returns `pose_` (without adding `offset_`). -/
def BaseOdometry.getPose (st : BaseOdometry) : Pose2D := st.pose

/-- The odometry handoff performed by `Nav2Driver::connect` when a remote
connection already exists: `base_odom_ = BaseOdometry(base_odom_.getPose())`. -/
def Nav2Driver.reconnectOdom (st : BaseOdometry) (now : ℚ) : BaseOdometry :=
  BaseOdometry.initWithOffset st.getPose now

/-- Unsigned 32-bit value of a C `int` (two's complement). -/
def toU32 (a : ℤ) : ℕ := (a % 4294967296).toNat

/-- Signed C `int` value of an unsigned 32-bit pattern. -/
def ofU32 (n : ℕ) : ℤ :=
  if n < 2147483648 then (n : ℤ) else (n : ℤ) - 4294967296

/-- C `int` bitwise XOR (the `^` operator) on two's-complement 32-bit
integers. -/
def cxor (a b : ℤ) : ℤ := ofU32 (Nat.xor (toU32 a) (toU32 b))

/-- The six covariance entries `BaseOdometry::getMessage` assigns (indices
0, 7, 14, 21, 28, 35 of the 36-entry row-major 6x6 matrix); all other
entries keep the message's zero initialization.  The source writes
`10^-3`, `10^6`, `10^3` with the C XOR operator. -/
def covDiag : ℕ → ℚ := fun i =>
  if i = 0 ∨ i = 7 then ((cxor 10 (-3) : ℤ) : ℚ)
  else if i = 14 ∨ i = 21 ∨ i = 28 then ((cxor 10 6 : ℤ) : ℚ)
  else if i = 35 then ((cxor 10 3 : ℤ) : ℚ)
  else 0

/-- The numeric payload of the `nav_msgs::Odometry` message built by
`BaseOdometry::getMessage` (frame names and the quaternion encoding of the
yaw are omitted; `yaw` is the angle passed to
`tf::createQuaternionMsgFromYaw`). -/
structure OdomMessage where
  posX : ℚ
  posY : ℚ
  posZ : ℚ
  yaw : ℚ
  poseCov : ℕ → ℚ
  twistLinX : ℚ
  twistLinY : ℚ
  twistAngZ : ℚ
  twistCov : ℕ → ℚ

/-- `BaseOdometry::getMessage`: position is `pose_ + offset_`, z is 0,
twist is `vel_`, and both covariance matrices get the fixed entries of
`covDiag`. -/
def BaseOdometry.getMessage (st : BaseOdometry) : OdomMessage :=
  { posX := st.pose.x + st.offset.x
    posY := st.pose.y + st.offset.y
    posZ := 0
    yaw := st.pose.th + st.offset.th
    poseCov := covDiag
    twistLinX := st.vel.x
    twistLinY := st.vel.y
    twistAngZ := st.vel.th
    twistCov := covDiag }

/-- Helper loop of `Nav2Remote::readLine`: consume one byte at a time from
the stream, drop `\r`, and on `\n` either return the assembled line (with
its remaining stream) or, when the line begins with the chatter sentinels
`|` or `+`, discard it and keep scanning.  Returning `none` models
`read(fd, ..) <= 0`, the -1 result of `readLine`. -/
def readLineGo : List Char → List Char → Option (List Char × List Char)
  | [], _ => none
  | c :: rest, acc =>
    if c = '\r' then readLineGo rest acc
    else if c = '\n' then
      if acc.head? = some '|' ∨ acc.head? = some '+' then readLineGo rest []
      else some (acc, rest)
    else readLineGo rest (acc ++ [c])

/-- `Nav2Remote::readLine`: the filtered-line reader, starting with an
empty line buffer. -/
def Nav2Remote.readLine (inp : List Char) : Option (List Char × List Char) :=
  readLineGo inp []

/-- Round a rational to the nearest integer, ties to even: the correctly
rounded decimal conversion glibc printf performs on an exact binary
value. -/
def rne (q : ℚ) : ℤ :=
  if Int.fract q < 1/2 then ⌊q⌋
  else if 1/2 < Int.fract q then ⌊q⌋ + 1
  else if ⌊q⌋ % 2 = 0 then ⌊q⌋ else ⌊q⌋ + 1

/-- Zero-pad the decimal digits of `n < 10^6` to width six. -/
def pad6 (n : ℕ) : String :=
  let s := toString n
  String.mk (List.replicate (6 - s.length) '0') ++ s

/-- Model of `sprintf("%lf", d)`: optional minus sign, integer part, and
exactly six fractional digits (the default `%lf` precision), correctly
rounded. -/
def formatLf (q : ℚ) : String :=
  let m := (rne (|q| * 1000000)).toNat
  (if q < 0 then "-" else "") ++ toString (m / 1000000) ++ "." ++ pad6 (m % 1000000)

/-- The command line formatted by `Nav2Remote::setRelativeVelocity`:
`sprintf(msg, "v %lf %lf %lf\n", vx, vy, turnRate * (180.0 / M_PI))` —
the radians-to-degrees conversion is applied to `turnRate` only. -/
def Nav2Remote.setRelativeVelocityMsg (vx vy turnRate : ℚ) : String :=
  "v " ++ formatLf vx ++ " " ++ formatLf vy ++ " "
    ++ formatLf (turnRate * (180 / mpi)) ++ "\n"

/-- The command line formatted by `Nav2Remote::setTargetOrientation`:
`sprintf(msg, "o %lf\n", orientation)`. -/
def Nav2Remote.setTargetOrientationMsg (orientation : ℚ) : String :=
  "o " ++ formatLf orientation ++ "\n"

/-- `Nav2Remote::setTargetOrientation`, with the `write` syscall modelled
by an environment function `w` giving the number of bytes written for the
message.  Result: the returned status (`0` on a complete write, `-1`
otherwise) paired with the trace of write attempts (always exactly one —
no partial-write retry). -/
def Nav2Remote.setTargetOrientation (w : String → ℤ) (orientation : ℚ) :
    ℤ × List String :=
  let msg := Nav2Remote.setTargetOrientationMsg orientation
  (if w msg = (msg.length : ℤ) then 0 else -1, [msg])

/-- Numeric value of one decimal digit character. -/
def digVal (c : Char) : Option ℕ :=
  if c.isDigit then some (c.toNat - 48) else none

/-- Accumulate decimal digits into a natural number. -/
def parseNatAux : List Char → ℕ → Option ℕ
  | [], acc => some acc
  | c :: cs, acc =>
    match digVal c with
    | some d => parseNatAux cs (acc * 10 + d)
    | none => none

/-- Parse a nonempty run of decimal digits. -/
def parseNat (cs : List Char) : Option ℕ :=
  if cs = [] then none else parseNatAux cs 0

/-- Parse an unsigned decimal number, optionally with a fractional part
(the decimal forms `%lf` receives in the protocol's responses). -/
def parseURat (cs : List Char) : Option ℚ :=
  let ip := cs.takeWhile (fun c => c ≠ '.')
  match cs.dropWhile (fun c => c ≠ '.') with
  | [] => (parseNat ip).map (fun n => (n : ℚ))
  | _ :: fp =>
    match parseNat ip, parseNat fp with
    | some n, some f => some ((n : ℚ) + (f : ℚ) / 10 ^ fp.length)
    | _, _ => none

/-- Parse a decimal number with an optional leading minus sign (`%lf` on a
well-formed response field). -/
def parseRat (cs : List Char) : Option ℚ :=
  match cs with
  | '-' :: rest => (parseURat rest).map (fun q => -q)
  | _ => parseURat cs

/-- Parse a decimal integer with an optional leading minus sign (`%d` on a
well-formed response field). -/
def parseInt (cs : List Char) : Option ℤ :=
  match cs with
  | '-' :: rest => (parseNat rest).map (fun n => -(n : ℤ))
  | _ => (parseNat cs).map (fun n => (n : ℤ))

/-- Split a line into its whitespace-separated fields. -/
def splitWSAux : List Char → List Char → List (List Char)
  | [], cur => if cur = [] then [] else [cur.reverse]
  | c :: cs, cur =>
    if c = ' ' then
      if cur = [] then splitWSAux cs [] else cur.reverse :: splitWSAux cs []
    else splitWSAux cs (c :: cur)

/-- Model of `sscanf(line, "%lf %lf %lf %d", ...)` on the well-formed
four-field responses of the `q` query (`none` stands for the unspecified
values an unchecked `sscanf` leaves in place on a malformed line). -/
def sscanf4 (ln : List Char) : Option (ℚ × ℚ × ℚ × ℤ) :=
  match splitWSAux ln [] with
  | [a, b, c, d] =>
    match parseRat a, parseRat b, parseRat c, parseInt d with
    | some x, some y, some t, some n => some (x, y, t, n)
    | _, _, _, _ => none
  | _ => none

/-- Model of `sscanf(line, "%lf", &result)` on a well-formed single-field
response: the first whitespace-separated field parsed as a decimal. -/
def sscanf1 (ln : List Char) : Option ℚ :=
  match splitWSAux ln [] with
  | f :: _ => parseRat f
  | [] => none

/-- `Nav2Remote::estimatePosition`: writes the fixed query `q\n`, performs
one filtered-line read, parses `%lf %lf %lf %d`, and multiplies the third
field by `M_PI / 180.0` (degrees to radians).  Result: the wire query
paired with the outputs (`none` models the -1 error return on read
failure, or a malformed line). -/
def Nav2Remote.estimatePosition (inp : List Char) :
    String × Option (ℚ × ℚ × ℚ) :=
  ("q\n",
   match Nav2Remote.readLine inp with
   | none => none
   | some (ln, _) =>
     match sscanf4 ln with
     | some (x, y, t, _) => some (x, y, t * (mpi / 180))
     | none => none)

/-- `Nav2Remote::getQueueSize`: writes the same fixed query `q\n`, performs
one filtered-line read, parses `%lf %lf %lf %d`, and returns the trailing
integer field.  Result: the wire query paired with the queue depth
(`none` models the -1 error return on read failure, or a malformed
line). -/
def Nav2Remote.getQueueSize (inp : List Char) : String × Option ℤ :=
  ("q\n",
   match Nav2Remote.readLine inp with
   | none => none
   | some (ln, _) =>
     match sscanf4 ln with
     | some (_, _, _, n) => some n
     | none => none)

/-- `Nav2Remote::getMaxSpeed`: writes the fixed query `qms\n` (4 bytes,
checked against the `write` return value `w`), performs one filtered-line
read, and parses `%lf`.  A short write or a failed read returns the -1
sentinel; `none` models the unspecified value an unchecked `sscanf` leaves
on a malformed line.  The second component is the trace of write attempts
(always exactly one). -/
def Nav2Remote.getMaxSpeed (w : String → ℤ) (inp : List Char) :
    Option ℚ × List String :=
  (if w "qms\n" ≠ 4 then some (-1)
   else
     match Nav2Remote.readLine inp with
     | none => some (-1)
     | some (ln, _) => sscanf1 ln,
   ["qms\n"])

/-- `Nav2Remote::wait`: poll `getQueueSize` until it reports a value below
1, sleeping `usleep(100000)` (100 ms) after every poll that reports 1 or
more.  The successive `getQueueSize` results are modelled by the list
`polls`; the result is the returned value, the number of polls made, and
the list of sleep durations in microseconds (`none` when the provided
poll sequence is exhausted before the loop returns). -/
def Nav2Remote.wait : List ℤ → Option (ℤ × ℕ × List ℕ)
  | [] => none
  | rc :: rest =>
    if rc < 1 then some (rc, 1, [])
    else
      match Nav2Remote.wait rest with
      | none => none
      | some (r, p, sl) => some (r, p + 1, 100000 :: sl)

/-- `Nav2Driver::setVelocity`: converts the incoming command
`(linear.x, linear.y, angular.z)` to polar form — speed
`vs = sqrt(pow(x,2) + pow(y,2))` and heading
`vn = atan2(y, x) * (180 / M_PI)` — and calls
`remote_->setRelativeVelocity(vn, vs, angular.z)`.  The C library
functions are modelled by the parameters `sq` (square root) and `at2`
(two-argument arctangent); the result is the wire line the call
produces. -/
def Nav2Driver.setVelocityMsg (sq : ℚ → ℚ) (at2 : ℚ → ℚ → ℚ)
    (lx ly az : ℚ) : String :=
  let vs := sq (lx ^ 2 + ly ^ 2)
  let vn := at2 ly lx * (180 / mpi)
  Nav2Remote.setRelativeVelocityMsg vn vs az

/-- Every line the reader loop returns fails the sentinel test, for any
starting buffer contents. -/
theorem readLineGo_head_not_sentinel (inp : List Char) :
    ∀ acc ln rest : List Char, readLineGo inp acc = some (ln, rest) →
      ln.head? ≠ some '|' ∧ ln.head? ≠ some '+' := by
  induction inp with
  | nil => intro acc ln rest h; simp [readLineGo] at h
  | cons c cs ih =>
    intro acc ln rest h
    rw [readLineGo] at h
    split_ifs at h with h1 h2 h3
    · exact ih _ _ _ h
    · exact ih _ _ _ h
    · rw [Option.some_inj] at h
      obtain ⟨rfl, rfl⟩ := Prod.mk.injEq .. ▸ h
      push_neg at h3
      exact h3
    · exact ih _ _ _ h

/-- A newline-terminated chatter line at the front of the stream is
discarded: the reader continues as if reading from the remainder, for any
starting buffer contents whose concatenation with the line starts with a
sentinel. -/
theorem readLineGo_skips_noise (ns : List Char) :
    ∀ acc rest : List Char,
      ((acc ++ ns).head? = some '|' ∨ (acc ++ ns).head? = some '+') →
      (∀ c ∈ ns, c ≠ '\n' ∧ c ≠ '\r') →
      readLineGo (ns ++ '\n' :: rest) acc = readLineGo rest [] := by
  induction ns with
  | nil =>
    intro acc rest hs _
    rw [List.append_nil] at hs
    rw [List.nil_append, readLineGo]
    simp [hs]
  | cons c cs ih =>
    intro acc rest hs hn
    have hc := hn c (List.mem_cons_self c cs)
    rw [List.cons_append, readLineGo]
    rw [if_neg hc.2, if_neg hc.1]
    rw [ih (acc ++ [c]) rest (by simpa [List.append_assoc] using hs)
        (fun c' hc' => hn c' (List.mem_cons_of_mem _ hc'))]

/-- C1: the claim states that after `updateWithAbsolute(s)` the stored
previous-sample field equals `s`.  The code violates this: because
`Pose2D::operator-` mutates its left operand, `prev_ = abs` stores the
computed delta instead.  Evaluation at the failing input — a stationary
robot whose device reports the absolute sample (5,0,0) three times — shows
`prev_` equal to (0,0,0) (the second delta), not the sample (5,0,0), after
the second update, and the accumulated pose reaching x = 10 after the
third. -/
theorem claim1_prev_stores_delta :
    ((((BaseOdometry.init 0).updateWithAbsolute 1 ⟨5, 0, 0⟩).updateWithAbsolute
        2 ⟨5, 0, 0⟩).prev = (⟨0, 0, 0⟩ : Pose2D) ∧
      (⟨0, 0, 0⟩ : Pose2D) ≠ (⟨5, 0, 0⟩ : Pose2D)) ∧
    ((((BaseOdometry.init 0).updateWithAbsolute 1 ⟨5, 0, 0⟩).updateWithAbsolute
        2 ⟨5, 0, 0⟩).updateWithAbsolute 3 ⟨5, 0, 0⟩).pose.x = 10 := by
  decide

/-- C2: the claim states the theta delta is wraparound-corrected whenever
the raw difference magnitude exceeds pi.  The code violates the general
condition: its `abs` is the integer `abs`, so the operand 3.5 truncates to
3, which is not above pi, and no correction is applied even though
3.5 > pi (first conjunct).  The claim's own example still behaves as
stated: for previous theta 3.0 and sample theta -3.1 the computed delta is
2*pi - 6.1, about 0.183 rad (second conjunct). -/
theorem claim2_wrap_check_truncates :
    (mpi < (7 : ℚ) / 2 - 0 ∧
      (Pose2D.sub ⟨0, 0, 7 / 2⟩ ⟨0, 0, 0⟩).th = 7 / 2) ∧
    ((Pose2D.sub ⟨0, 0, -31 / 10⟩ ⟨0, 0, 3⟩).th = 2 * mpi - 61 / 10 ∧
      18 / 100 < 2 * mpi - 61 / 10 ∧ 2 * mpi - 61 / 10 < 19 / 100) := by
  decide

/-- C3: the claim states the published pose is continuous across every
reconnect, including one following an earlier reconnect.  Because
`getPose()` returns `pose_` without adding `offset_`, the offset saved at
a second reconnect drops the first one: starting fresh, sample (1,0,0),
reconnect, and a fresh device sample republish x = 1 (continuity holds
for the first reconnect, first conjunct); but after a further sample
(2,0,0) the published pose is x = 3, and a second reconnect followed by a
fresh device sample (0,0,0) publishes x = 2, not 3 (remaining
conjuncts). -/
theorem claim3_second_reconnect_discontinuity :
    ((Nav2Driver.reconnectOdom ((BaseOdometry.init 0).updateWithAbsolute 1
          ⟨1, 0, 0⟩) 2).updateWithAbsolute 3 ⟨0, 0, 0⟩).getMessage.posX = 1 ∧
    (((Nav2Driver.reconnectOdom ((BaseOdometry.init 0).updateWithAbsolute 1
          ⟨1, 0, 0⟩) 2).updateWithAbsolute 3 ⟨2, 0, 0⟩).getMessage.posX = 3 ∧
      ((Nav2Driver.reconnectOdom ((Nav2Driver.reconnectOdom
            ((BaseOdometry.init 0).updateWithAbsolute 1 ⟨1, 0, 0⟩)
            2).updateWithAbsolute 3 ⟨2, 0, 0⟩) 4).updateWithAbsolute 5
          ⟨0, 0, 0⟩).getMessage.posX = 2) := by
  decide

/-- C4: the claim states the covariance diagonal holds small positive
constants for x, y and yaw rate and large positive constants for z, roll,
pitch.  The code computes the constants with the C XOR operator: the x and
y entries are 10 XOR -3 = -9 (negative, refuting "small positive"), the
z/roll/pitch entries are 10 XOR 6 = 12, and the yaw entries are
10 XOR 3 = 9; the off-diagonal entries are all zero as claimed (last
conjunct). -/
theorem claim4_covariance_xor_constants :
    ((BaseOdometry.init 0).getMessage.poseCov 0 = -9 ∧
      (BaseOdometry.init 0).getMessage.poseCov 7 = -9 ∧
      (BaseOdometry.init 0).getMessage.poseCov 14 = 12 ∧
      (BaseOdometry.init 0).getMessage.poseCov 21 = 12 ∧
      (BaseOdometry.init 0).getMessage.poseCov 28 = 12 ∧
      (BaseOdometry.init 0).getMessage.poseCov 35 = 9 ∧
      (BaseOdometry.init 0).getMessage.twistCov 0 = -9 ∧
      (BaseOdometry.init 0).getMessage.twistCov 35 = 9) ∧
    ¬ 0 < (BaseOdometry.init 0).getMessage.poseCov 0 ∧
    (∀ i : Fin 36, (i.1 = 0 ∨ i.1 = 7 ∨ i.1 = 14 ∨ i.1 = 21 ∨ i.1 = 28 ∨
        i.1 = 35) ∨ (BaseOdometry.init 0).getMessage.poseCov i.1 = 0) := by
  decide

/-- C5: for every incoming command (lx, ly, az), the wire line produced by
`Nav2Driver::setVelocity` carries the heading `atan2(ly, lx)` converted to
degrees in the first argument slot, the speed magnitude
`sqrt(lx^2 + ly^2)` in the second, and `az` (radians per second) in the
turn-rate slot, where `setRelativeVelocity` applies its own
radians-to-degrees conversion. -/
theorem claim5_setVelocity_polar_routing (sq : ℚ → ℚ) (at2 : ℚ → ℚ → ℚ)
    (lx ly az : ℚ) :
    Nav2Driver.setVelocityMsg sq at2 lx ly az =
      "v " ++ formatLf (at2 ly lx * (180 / mpi)) ++ " "
        ++ formatLf (sq (lx ^ 2 + ly ^ 2)) ++ " "
        ++ formatLf (az * (180 / mpi)) ++ "\n" := rfl

/-- C6 counterexample: with vx = 1.5, vy = 0.0 and turnRate equal to -30
degrees in radians, the formatted wire line is not the claimed exact
string `v 1.5 0.0 -30` followed by the terminator, because `%lf` prints
six fractional digits. -/
theorem claim6_exact_wire_string_counterexample :
    Nav2Remote.setRelativeVelocityMsg (3 / 2) 0 ((-30) * mpi / 180) ≠
      "v 1.5 0.0 -30\n" := by
  decide

/-- C6 as amended: the same call produces exactly
`v 1.500000 0.000000 -30.000000` followed by the newline terminator, with
the radians-to-degrees conversion applied only to the turn rate (it
recovers exactly -30 degrees) and vx printed unconverted. -/
theorem claim6_six_decimal_wire_string :
    Nav2Remote.setRelativeVelocityMsg (3 / 2) 0 ((-30) * mpi / 180) =
      "v 1.500000 0.000000 -30.000000\n" ∧
    ((-30) * mpi / 180) * (180 / mpi) = -30 ∧ formatLf (3 / 2) = "1.500000" := by
  decide

/-- C7: `estimatePosition` and `getQueueSize` write the same wire query
`q`, and on any stream whose first filtered line parses as the four
fields x, y, theta, queueDepth, `estimatePosition` returns x, y and theta
multiplied by pi/180, while `getQueueSize` returns the trailing integer
field. -/
theorem claim7_shared_query_and_parse (inp ln rest : List Char)
    (x y t : ℚ) (n : ℤ)
    (hr : Nav2Remote.readLine inp = some (ln, rest))
    (hp : sscanf4 ln = some (x, y, t, n)) :
    (Nav2Remote.estimatePosition inp).1 = "q\n" ∧
    (Nav2Remote.getQueueSize inp).1 = "q\n" ∧
    (Nav2Remote.estimatePosition inp).2 = some (x, y, t * (mpi / 180)) ∧
    (Nav2Remote.getQueueSize inp).2 = some n := by
  simp [Nav2Remote.estimatePosition, Nav2Remote.getQueueSize, hr, hp]

/-- C7 witness: the theorem applied to the concrete response line
`0.5 -2 180 7`. -/
theorem claim7_witness :
    (Nav2Remote.estimatePosition "0.5 -2 180 7\n".toList).1 = "q\n" ∧
    (Nav2Remote.getQueueSize "0.5 -2 180 7\n".toList).1 = "q\n" ∧
    (Nav2Remote.estimatePosition "0.5 -2 180 7\n".toList).2 =
      some (1 / 2, -2, 180 * (mpi / 180)) ∧
    (Nav2Remote.getQueueSize "0.5 -2 180 7\n".toList).2 = some 7 :=
  claim7_shared_query_and_parse "0.5 -2 180 7\n".toList "0.5 -2 180 7".toList
    [] (1 / 2) (-2) 180 7 (by decide) (by decide)

/-- C8: a short write (fewer bytes written than formatted) makes the write
operation return the nonzero sentinel -1 after exactly one write attempt,
and a failed filtered-line read (stream closed or zero-byte read) makes
the query operation return the -1 sentinel after exactly one write
attempt; both signal the failure by return value, with no retry at this
layer. -/
theorem claim8_io_error_sentinels :
    (∀ (w : String → ℤ) (o : ℚ),
        w (Nav2Remote.setTargetOrientationMsg o) <
            ((Nav2Remote.setTargetOrientationMsg o).length : ℤ) →
        (Nav2Remote.setTargetOrientation w o).1 = -1 ∧
        (Nav2Remote.setTargetOrientation w o).2 =
          [Nav2Remote.setTargetOrientationMsg o]) ∧
    (∀ (w : String → ℤ) (inp : List Char),
        Nav2Remote.readLine inp = none →
        (Nav2Remote.getMaxSpeed w inp).1 = some (-1) ∧
        (Nav2Remote.getMaxSpeed w inp).2 = ["qms\n"]) := by
  constructor
  · intro w o h
    have hne : w (Nav2Remote.setTargetOrientationMsg o) ≠
        ((Nav2Remote.setTargetOrientationMsg o).length : ℤ) := ne_of_lt h
    simp [Nav2Remote.setTargetOrientation, hne]
  · intro w inp hr
    by_cases hw : w "qms\n" = 4
    · simp [Nav2Remote.getMaxSpeed, hw, hr]
    · simp [Nav2Remote.getMaxSpeed, hw]

/-- C8 witness: the theorem applied to a write environment that writes
nothing (short write) and to an empty input stream (read failure). -/
theorem claim8_witness :
    ((Nav2Remote.setTargetOrientation (fun _ => 0) 1).1 = -1 ∧
      (Nav2Remote.setTargetOrientation (fun _ => 0) 1).2 =
        [Nav2Remote.setTargetOrientationMsg 1]) ∧
    ((Nav2Remote.getMaxSpeed (fun _ => 4) []).1 = some (-1) ∧
      (Nav2Remote.getMaxSpeed (fun _ => 4) []).2 = ["qms\n"]) :=
  ⟨claim8_io_error_sentinels.1 (fun _ => 0) 1 (by decide),
   claim8_io_error_sentinels.2 (fun _ => 4) [] rfl⟩

/-- C9: the filtered line reader never returns a line beginning with the
chatter sentinels `|` or `+` (first conjunct), and a newline-terminated
sentinel line at the front of the stream is discarded, the reader
continuing with the rest of the stream within the same read call (second
conjunct). -/
theorem claim9_reader_filters_sentinels :
    (∀ inp ln rest : List Char,
        Nav2Remote.readLine inp = some (ln, rest) →
        ln.head? ≠ some '|' ∧ ln.head? ≠ some '+') ∧
    (∀ ns rest : List Char,
        (ns.head? = some '|' ∨ ns.head? = some '+') →
        (∀ c ∈ ns, c ≠ '\n' ∧ c ≠ '\r') →
        Nav2Remote.readLine (ns ++ '\n' :: rest) = Nav2Remote.readLine rest) :=
  ⟨fun inp ln rest h => readLineGo_head_not_sentinel inp [] ln rest h,
   fun ns rest hs hn => readLineGo_skips_noise ns [] rest hs hn⟩

/-- C9 witness: the theorem applied to the concrete stream
`|ab`, newline, `ok`, newline. -/
theorem claim9_witness :
    ("ok".toList.head? ≠ some '|' ∧ "ok".toList.head? ≠ some '+') ∧
    Nav2Remote.readLine ("|ab".toList ++ '\n' :: "ok\n".toList) =
      Nav2Remote.readLine "ok\n".toList :=
  ⟨claim9_reader_filters_sentinels.1 "|ab\nok\n".toList "ok".toList [] (by decide),
   claim9_reader_filters_sentinels.2 "|ab".toList "ok\n".toList (by decide) (by decide)⟩

/-- C10: whenever `wait` returns, the returned value is the first polled
value below 1 (all earlier polls reported at least 1), the number of polls
is one more than the number of 100000-microsecond sleeps (one sleep
between each consecutive pair of polls), a poll of the -1 error sentinel
returns it immediately, and the poll sequence [3,2,1,0] returns success 0
after exactly 4 polls and 3 sleeps of 100 ms. -/
theorem claim10_wait_polls_until_below_one :
    (∀ (polls : List ℤ) (r : ℤ) (p : ℕ) (sl : List ℕ),
        Nav2Remote.wait polls = some (r, p, sl) →
        r < 1 ∧ 1 ≤ p ∧ sl = List.replicate (p - 1) 100000 ∧
          (∀ q ∈ polls.take (p - 1), 1 ≤ q) ∧
          polls.get? (p - 1) = some r) ∧
    (∀ rest : List ℤ, Nav2Remote.wait ((-1) :: rest) = some (-1, 1, [])) ∧
    Nav2Remote.wait [3, 2, 1, 0] = some (0, 4, [100000, 100000, 100000]) := by
  refine ⟨?_, ?_, by decide⟩
  · intro polls
    induction polls with
    | nil => intro r p sl h; simp [Nav2Remote.wait] at h
    | cons rc rest ih =>
      intro r p sl h
      rw [Nav2Remote.wait] at h
      split_ifs at h with hlt
      · simp only [Option.some.injEq, Prod.mk.injEq] at h
        obtain ⟨rfl, rfl, rfl⟩ := h
        exact ⟨hlt, le_refl 1, by simp, by simp, by simp⟩
      · cases hw : Nav2Remote.wait rest with
        | none => rw [hw] at h; exact absurd h (by simp)
        | some trip =>
          obtain ⟨rr, pp, ss⟩ := trip
          rw [hw] at h
          simp only [Option.some.injEq, Prod.mk.injEq] at h
          obtain ⟨rfl, rfl, rfl⟩ := h
          obtain ⟨h1, h2, h3, h4, h5⟩ := ih rr pp ss hw
          have hp : pp + 1 - 1 = pp := by omega
          have hpp : pp = (pp - 1) + 1 := by omega
          refine ⟨h1, by omega, ?_, ?_, ?_⟩
          · rw [hp, h3, hpp, List.replicate_succ, Nat.add_sub_cancel]
          · rw [hp]
            intro q hq
            rw [hpp, List.take_succ_cons] at hq
            rcases List.mem_cons.mp hq with rfl | hmem
            · omega
            · exact h4 q (hpp ▸ hmem)
          · rw [hp, hpp, List.get?_cons_succ]
            exact hpp ▸ h5
  · intro rest
    rw [Nav2Remote.wait, if_pos (by norm_num)]

/-- C10 witness: the theorem applied to the single-element poll sequence
[0]. -/
theorem claim10_witness :
    (0:ℤ) < 1 ∧ 1 ≤ 1 ∧ ([] : List ℕ) = List.replicate (1 - 1) 100000 ∧
      (∀ q ∈ ([(0:ℤ)].take (1 - 1)), 1 ≤ q) ∧
      [(0:ℤ)].get? (1 - 1) = some 0 :=
  claim10_wait_polls_until_below_one.1 [0] 0 1 [] (by decide)
